import Mathlib

/-!
Shallow embedding of the inbox-buddy outbound-email delivery engine.

Sources embedded here:
* `supabase/functions/send-email/index.ts` — the edge function: HTML
  sanitization, CRLF normalization, dot-stuffing, e-mail/subject/body
  validation, the SMTP wire client (`SmtpWire`, `sendEmailViaSMTP`) and the
  request handler (`serve` callback, modelled as `handleSend`).
* the campaign-progress page (client-side scheduler): `processQueue`,
  the queue-processor start effect and the local status bookkeeping of
  `sendEmail`, modelled as `processQueue` / `attachProcessor`.

JavaScript string semantics are modelled explicitly: a string is a sequence
of Unicode scalar values (`List Char`); `String.prototype.length` counts
UTF-16 code units (`utf16Len`), which differs from the UTF-8 byte count
(`utf8ByteLen`).  Single-character global regex replaces are modelled by
`replaceChar`.  Database access and the SMTP socket are modelled by explicit
state (a `Db` record, a scripted list of server replies).
-/

set_option maxRecDepth 40000

/-- Character class of the JavaScript regex `\s` (whitespace), used by the
`[^\s@]` pieces of the e-mail regex and by `String.prototype.trim`. -/
def jsSpace (c : Char) : Bool :=
  c == ' ' || c == '\t' || c == '\n' || c == '\r' ||
  c == Char.ofNat 11 || c == Char.ofNat 12 ||
  c == Char.ofNat 0xa0 || c == Char.ofNat 0x1680 ||
  (decide (0x2000 ≤ c.toNat) && decide (c.toNat ≤ 0x200a)) ||
  c == Char.ofNat 0x2028 || c == Char.ofNat 0x2029 ||
  c == Char.ofNat 0x202f || c == Char.ofNat 0x205f ||
  c == Char.ofNat 0x3000 || c == Char.ofNat 0xfeff

/-- Length of a string in UTF-16 code units: this is what the JavaScript
`String.prototype.length` used by the validation code returns.  A scalar
value at or above U+10000 occupies two code units (a surrogate pair). -/
def utf16Len (s : String) : Nat :=
  (s.data.map (fun c => if 0x10000 ≤ c.toNat then 2 else 1)).sum

/-- Length of a string in UTF-8 bytes (what the spec means by "bytes"). -/
def utf8ByteLen (s : String) : Nat :=
  (s.data.map Char.utf8Size).sum

/-- Model of `String.prototype.trim` (strips the JS whitespace class from
both ends). -/
def trimJs (s : String) : String :=
  String.mk (((s.data.dropWhile jsSpace).reverse.dropWhile jsSpace).reverse)

/-- Model of a JavaScript global regex replace whose pattern is one fixed
character, e.g. `value.replace(/&/g, "&amp;")`: every occurrence of `t` in
the input is replaced by the string `r`. -/
def replaceChar (t : Char) (r : List Char) : List Char → List Char
  | [] => []
  | c :: cs => (if c = t then r else [c]) ++ replaceChar t r cs

/-- Model of `sanitizeHtml` (send-email/index.ts lines 20-31): escapes
ampersand, angle brackets, double quote and apostrophe — in that sequential
order — and then converts every newline to `<br>`.  `Char.ofNat 39` is the
apostrophe, replaced by `&#x27;`. -/
def sanitizeHtml (cs : List Char) : List Char :=
  replaceChar '\n' "<br>".data
    (replaceChar (Char.ofNat 39) "&#x27;".data
      (replaceChar '"' "&quot;".data
        (replaceChar '>' "&gt;".data
          (replaceChar '<' "&lt;".data
            (replaceChar '&' "&amp;".data cs)))))

/-- Model of `normalizeCrlf` (line 64-66): the global replace of `\r?\n`
by `\r\n`.  An existing CRLF pair is kept, a bare LF gains a CR, and a
bare CR not followed by LF is left untouched. -/
def normalizeCrlf : List Char → List Char
  | '\r' :: '\n' :: rest => '\r' :: '\n' :: normalizeCrlf rest
  | '\n' :: rest => '\r' :: '\n' :: normalizeCrlf rest
  | c :: rest => c :: normalizeCrlf rest
  | [] => []

/-- Scanner for the non-anchored part of the `dotStuff` regex
`(^|\r\n)\.`: a dot immediately preceded by CRLF gets a second dot,
and scanning resumes after the matched text. -/
def dotStuffAux : List Char → List Char
  | '\r' :: '\n' :: '.' :: rest => '\r' :: '\n' :: '.' :: '.' :: dotStuffAux rest
  | c :: rest => c :: dotStuffAux rest
  | [] => []

/-- Model of `dotStuff` (lines 68-71): RFC 5321 dot-stuffing, as the global
replace of `(^|\r\n)\.` by `$1..` — a dot at the very start of the string,
or right after a CRLF, is doubled. -/
def dotStuff (cs : List Char) : List Char :=
  match cs with
  | '.' :: rest => '.' :: '.' :: dotStuffAux rest
  | _ => dotStuffAux cs

/-- The body bytes put on the wire for a given body string (lines 212-213):
`dotStuff(normalizeCrlf(sanitizeHtml(body)))`. -/
def htmlCrlf (body : List Char) : List Char :=
  dotStuff (normalizeCrlf (sanitizeHtml body))

/-- Model of `isValidEmail` (lines 34-37): the regex
`^[^\s@]+@[^\s@]+\.[^\s@]+$` together with `email.length <= 254`.
The regex holds exactly when the string splits as `local@domain` with a
nonempty `local` free of whitespace and `@`, and a `domain` free of
whitespace and `@` containing a dot that is neither its first nor its last
character. -/
def isValidEmail (email : String) : Bool :=
  let cs := email.data
  let p := cs.span (fun c => !(c == '@'))
  (match p.2 with
   | [] => false
   | _ :: domain =>
     !p.1.isEmpty && p.1.all (fun c => !jsSpace c) &&
     domain.all (fun c => !jsSpace c && !(c == '@')) &&
     (domain.drop 1).dropLast.contains '.') &&
  decide (utf16Len email ≤ 254)

/-- Model of `isValidSubject` (lines 40-43): no carriage return or line
feed anywhere (header-injection guard) and at most 998 UTF-16 code units. -/
def isValidSubject (subject : String) : Bool :=
  !(subject.data.any (fun c => c == '\r' || c == '\n')) &&
  decide (utf16Len subject ≤ 998)

/-- Model of `escapeHeaderValue` (lines 60-62): escape backslash and double
quote, then replace every CR and LF by a space. -/
def escapeHeaderValue (s : String) : String :=
  String.mk
    (replaceChar '\r' [' ']
      (replaceChar '\n' [' ']
        (replaceChar '"' ['\\', '"']
          (replaceChar '\\' ['\\', '\\'] s.data))))


/-- The base64 alphabet. -/
def b64Table : List Char :=
  "ABCDEFGHIJKLMNOPQRSTUVWXYZabcdefghijklmnopqrstuvwxyz0123456789+/".data

/-- The base64 digit for a 6-bit value. -/
def b64Digit (n : Nat) : Char := (b64Table.drop n).headD 'A'

/-- Standard base64 encoding of a byte sequence, with `=` padding. -/
def b64Encode : List Nat → List Char
  | [] => []
  | [a] => [b64Digit (a / 4), b64Digit (a % 4 * 16), '=', '=']
  | [a, b] => [b64Digit (a / 4), b64Digit (a % 4 * 16 + b / 16), b64Digit (b % 16 * 4), '=']
  | a :: b :: c :: rest =>
    b64Digit (a / 4) :: b64Digit (a % 4 * 16 + b / 16) ::
      b64Digit (b % 16 * 4 + c / 64) :: b64Digit (c % 64) :: b64Encode rest

/-- Base64 of a latin-1 string, treating each scalar value as one byte
(total function; the partiality of `btoa` is handled in `toBase64`). -/
def latin1B64 (s : String) : String :=
  String.mk (b64Encode (s.data.map (fun c => c.toNat)))

/-- Model of `toBase64` (lines 55-58), i.e. of the platform `btoa`: encodes
a string of scalar values below 256 as base64 of those bytes; a scalar
value of 256 or more makes `btoa` throw `InvalidCharacterError`. -/
def toBase64 (s : String) : Option String :=
  if s.data.all (fun c => decide (c.toNat < 256)) then some (latin1B64 s) else none


/-- One parsed SMTP server response as `SmtpWire.readResponse` delivers it:
`code` is the numeric reply code of the first three characters (`none` when
they do not parse as a number, in which case the client throws
`SMTP invalid response`), `raw` is the full accumulated response text. -/
structure SmtpReply where
  code : Option Nat
  raw : String
deriving DecidableEq, Repr

/-- State of the modelled SMTP connection: the scripted replies the server
will deliver next, and the transcript of everything the client wrote. -/
structure Wire where
  replies : List SmtpReply
  written : List String
deriving DecidableEq, Repr

/-- Read one server response; an exhausted script models the peer closing
the connection (`conn.read` returning null, line 102). -/
def wireRead (w : Wire) : Except (String × Wire) (SmtpReply × Wire) :=
  match w.replies with
  | [] => .error ("SMTP connection closed", w)
  | r :: rest => .ok (r, { w with replies := rest })

/-- Model of `SmtpWire.assertExpected` (lines 129-141): `none` when the code
is in the expected set, otherwise the thrown message, which embeds the
numeric code and the raw server text. -/
def assertExpected (code : Nat) (raw : String) (expected : List Nat)
    (context : String) : Option String :=
  if expected.contains code then none
  else some ("SMTP unexpected response for " ++ context ++ ": got " ++
    toString code ++ "\n" ++ raw)

/-- Model of `SmtpWire.readExpected` (lines 143-146). -/
def wireReadExpected (w : Wire) (expected : List Nat) (context : String) :
    Except (String × Wire) Wire :=
  match wireRead w with
  | .error e => .error e
  | .ok (r, w1) =>
    match r.code with
    | none => .error ("SMTP invalid response: " ++ r.raw, w1)
    | some c =>
      match assertExpected c r.raw expected context with
      | none => .ok w1
      | some msg => .error (msg, w1)

/-- Model of `SmtpWire.cmd` (lines 148-151): write the command line, then
read a response and check it against the expected codes. -/
def wireCmd (w : Wire) (command : String) (expected : List Nat) :
    Except (String × Wire) Wire :=
  wireReadExpected { w with written := w.written ++ [command] } expected command

/-- Transcript of commands written, also available on the failure branch. -/
def wireWritten : Except (String × Wire) Wire → List String
  | .ok w => w.written
  | .error (_, w) => w.written

/-- The `AUTH LOGIN` attempt (lines 200-202): expect 334 after the command,
334 after the base64 username, 235 after the base64 password.  A `btoa`
failure surfaces as a thrown error at the point of the call. -/
def authLogin (w : Wire) (username password : String) :
    Except (String × Wire) Wire :=
  match wireCmd w "AUTH LOGIN" [334] with
  | .error e => .error e
  | .ok w1 =>
    match toBase64 username with
    | none => .error ("InvalidCharacterError", w1)
    | some u64 =>
      match wireCmd w1 u64 [334] with
      | .error e => .error e
      | .ok w2 =>
        match toBase64 password with
        | none => .error ("InvalidCharacterError", w2)
        | some p64 => wireCmd w2 p64 [235]

/-- Model of the AUTH sequence (lines 198-206): try `AUTH LOGIN`; if any of
its steps throws, fall back to a single `AUTH PLAIN` carrying the base64
SASL blob `\0username\0password`, accepted on reply 235 or 503. -/
def authStep (w : Wire) (username password : String) :
    Except (String × Wire) Wire :=
  match authLogin w username password with
  | .ok w1 => .ok w1
  | .error (_, w1) =>
    match toBase64 ("\x00" ++ username ++ "\x00" ++ password) with
    | none => .error ("InvalidCharacterError", w1)
    | some plain => wireCmd w1 ("AUTH PLAIN " ++ plain) [235, 503]

/-- Model of the `SmtpConfig` record (lines 45-53). -/
structure SmtpConfig where
  host : String
  port : Nat
  username : String
  password : String
  fromEmail : String
  fromName : String
  encryption : String
deriving DecidableEq, Repr

/-- Message assembly inside `sendEmailViaSMTP` (lines 212-230): headers and
the sanitized, CRLF-normalized, dot-stuffed HTML body joined by CRLF. -/
def composeMessage (smtp : SmtpConfig) (fromEmail recipientEmail subject body :
    String) : String :=
  let htmlBody := String.mk (htmlCrlf body.data)
  let fromName := trimJs smtp.fromName
  let fromHeader :=
    if fromName = "" then fromEmail
    else "\"" ++ escapeHeaderValue fromName ++ "\" <" ++ fromEmail ++ ">"
  String.intercalate "\r\n"
    ["From: " ++ fromHeader,
     "To: <" ++ recipientEmail ++ ">",
     "Subject: " ++ subject,
     "MIME-Version: 1.0",
     "Content-Type: text/html; charset=\"UTF-8\"",
     "Content-Transfer-Encoding: 7bit",
     "",
     htmlBody,
     ""]

/-- The protocol conversation of `sendEmailViaSMTP` between connect and the
`finally` (lines 186-236).  `tlsOutcome` scripts `Deno.startTls`: `some e`
models the TLS upgrade throwing `e`. -/
def smtpSession (smtp : SmtpConfig) (fromEmail recipientEmail subject body :
    String) (tlsOutcome : Option String) (script : List SmtpReply) :
    Except (String × Wire) Wire := do
  let w1 ← wireReadExpected { replies := script, written := [] } [220] "greeting"
  let w2 ← wireCmd w1 "EHLO localhost" [250]
  let w3 ←
    if smtp.encryption = "tls" then do
      let wa ← wireCmd w2 "STARTTLS" [220]
      match tlsOutcome with
      | some e => throw (e, wa)
      | none => wireCmd wa "EHLO localhost" [250]
    else pure w2
  let w4 ← authStep w3 smtp.username smtp.password
  let w5 ← wireCmd w4 ("MAIL FROM:<" ++ fromEmail ++ ">") [250]
  let w6 ← wireCmd w5 ("RCPT TO:<" ++ recipientEmail ++ ">") [250, 251]
  let w7 ← wireCmd w6 "DATA" [354]
  let message := composeMessage smtp fromEmail recipientEmail subject body
  let w8 : Wire := { w7 with written := w7.written ++ [message ++ "\r\n.\r\n"] }
  let w9 ← wireReadExpected w8 [250] "end-of-data"
  wireCmd w9 "QUIT" [221]

deriving instance DecidableEq for Except

/-- Observable outcome of one `sendEmailViaSMTP` call: the returned or
thrown result, whether a connection was opened, whether it was closed, and
the transcript of written data. -/
structure SmtpRun where
  result : Except String Unit
  opened : Bool
  closed : Bool
  written : List String
deriving DecidableEq, Repr

/-- Model of `sendEmailViaSMTP` (lines 166-241): validation before any
connection, then `Deno.connect` (`connectError = some e` models the connect
call throwing), then the session inside `try`, with the `finally` closing
the connection on both the success and the failure branch. -/
def sendEmailViaSMTP (smtp : SmtpConfig) (toAddress subject body : String)
    (connectError : Option String) (tlsOutcome : Option String)
    (script : List SmtpReply) : SmtpRun :=
  let fromEmail := trimJs smtp.fromEmail
  let recipientEmail := trimJs toAddress
  if isValidEmail fromEmail = false then
    ⟨.error "Invalid sender email (From Email)", false, false, []⟩
  else if isValidEmail recipientEmail = false then
    ⟨.error "Invalid recipient email", false, false, []⟩
  else if smtp.host = "" ∨ smtp.port = 0 ∨ smtp.username = "" ∨ smtp.password = "" then
    ⟨.error "Incomplete SMTP settings", false, false, []⟩
  else
    match connectError with
    | some e => ⟨.error e, false, false, []⟩
    | none =>
      match smtpSession smtp fromEmail recipientEmail subject body tlsOutcome script with
      | .ok w => ⟨.ok (), true, true, w.written⟩
      | .error (e, w) => ⟨.error e, true, true, w.written⟩

/-- Status of an `email_queue` row. -/
inductive QStatus
  | pending
  | sending
  | sent
  | skipped
  | failed
deriving DecidableEq, Repr

/-- Row of the `email_queue` table, with the columns the engine touches. -/
structure QueueRow where
  id : Nat
  campaign_id : Nat
  recipient_email : String
  status : QStatus
deriving DecidableEq, Repr

/-- Row of the `campaigns` table, with the columns the handler touches. -/
structure CampaignRow where
  id : Nat
  user_id : Nat
  sent_count : Nat
deriving DecidableEq, Repr

/-- Row of the `sent_emails` table as inserted and queried by the handler. -/
structure SentRow where
  user_id : Nat
  campaign_id : Nat
  recipient_email : String
  subject : String
  status : String
deriving DecidableEq, Repr

/-- Row of the `user_smtp_settings` table. -/
structure SmtpSettingsRow where
  user_id : Nat
  host : String
  port : Nat
  username : String
  password : String
  from_email : String
  from_name : String
  encryption : String
deriving DecidableEq, Repr

/-- The persisted state the edge function reads and writes.  The queue list
is kept in `created_at` ascending order, matching the order the client
fetches it in. -/
structure Db where
  campaigns : List CampaignRow
  queue : List QueueRow
  sent : List SentRow
  smtpSettings : List SmtpSettingsRow
deriving DecidableEq, Repr

/-- The request body of the invocation boundary (`SendEmailRequest`,
lines 10-17).  Ids are numeric in the model; `none` models an absent or
falsy field. -/
structure SendEmailRequest where
  queueItemId : Option Nat
  campaignId : Option Nat
  recipientEmail : String
  subject : String
  body : String
  testMode : Bool
deriving DecidableEq, Repr

/-- The JSON response of the edge function: HTTP status plus the `success`,
`message`, `error` and `skipped` fields (absent fields are `none`). -/
structure HandlerResponse where
  statusCode : Nat
  success : Bool
  message : Option String
  error : Option String
  skipped : Option Bool
deriving DecidableEq, Repr

/-- Result of one handler invocation: the response, the database afterward,
and the list of recipients for which `sendEmailViaSMTP` was invoked (empty
exactly when the Transport was never contacted). -/
structure HandlerResult where
  response : HandlerResponse
  db : Db
  smtpAttempts : List String
deriving DecidableEq, Repr

/-- Lookup of `user_smtp_settings` by user (lines 301-305). -/
def findSmtp (db : Db) (uid : Nat) : Option SmtpSettingsRow :=
  db.smtpSettings.find? (fun r => r.user_id == uid)

/-- Ownership check: `campaigns` row by id and user (lines 355-360). -/
def findCampaign (db : Db) (cid uid : Nat) : Option CampaignRow :=
  db.campaigns.find? (fun c => c.id == cid && c.user_id == uid)

/-- Queue item by id and campaign (lines 370-375); the select list is
`id, status` — the handler never reads the row recipient column. -/
def findQueueItem (db : Db) (qid cid : Nat) : Option QueueRow :=
  db.queue.find? (fun q => q.id == qid && q.campaign_id == cid)

/-- The global per-user duplicate lookup (lines 392-399): a `sent_emails`
row of this user for this recipient with status `sent`. -/
def findDuplicate (db : Db) (uid : Nat) (recipient : String) : Option SentRow :=
  db.sent.find? (fun s =>
    s.user_id == uid && s.recipient_email == recipient && s.status == "sent")

/-- Campaign row by id only, used for the counter update (lines 443-447). -/
def findCampaignById (db : Db) (cid : Nat) : Option CampaignRow :=
  db.campaigns.find? (fun c => c.id == cid)

/-- Model of `update email_queue set status = st where id = qid`. -/
def updateQueueStatus (db : Db) (qid : Nat) (st : QStatus) : Db :=
  { db with queue := db.queue.map (fun q =>
      if q.id = qid then { q with status := st } else q) }

/-- Model of the `sent_emails` insert (lines 433-440). -/
def insertSentRow (db : Db) (uid cid : Nat) (recipient subject : String) : Db :=
  { db with sent := db.sent ++ [⟨uid, cid, recipient, subject, "sent"⟩] }

/-- Model of the counter update (lines 442-454): read the campaign row by
id and, when found, write back `sent_count + 1`. -/
def bumpSentCount (db : Db) (cid : Nat) : Db :=
  match findCampaignById db cid with
  | some c =>
    { db with campaigns := db.campaigns.map (fun x =>
        if x.id = cid then { x with sent_count := c.sent_count + 1 } else x) }
  | none => db

/-- Database bookkeeping of the successful-send branch (lines 417-454):
the queue item goes to `sending` then `sent`, a `sent_emails` row is
inserted, and the campaign counter is bumped by one. -/
def applySendSuccess (db : Db) (uid cid qid : Nat)
    (recipient subject : String) : Db :=
  bumpSentCount
    (insertSentRow
      (updateQueueStatus (updateQueueStatus db qid QStatus.sending) qid
        QStatus.sent) uid cid recipient subject) cid

/-- Model of the `serve` handler body (lines 274-474) after authentication:
`uid` is the verified caller, `smtpOutcome` the outcome of the (single
possible) `sendEmailViaSMTP` call.  Mirrors the order of the source:
recipient, subject and body validation, SMTP settings lookup, the test-mode
branch, required ids, campaign ownership, queue-item lookup, the
already-finalized check, the duplicate check, and the send with its
success/failure bookkeeping. -/
def handleSend (db : Db) (uid : Nat) (req : SendEmailRequest)
    (smtpOutcome : Except String Unit) : HandlerResult :=
  if req.recipientEmail = "" ∨ isValidEmail req.recipientEmail = false then
    ⟨⟨400, false, none, some "Invalid recipient email", none⟩, db, []⟩
  else if req.subject = "" ∨ isValidSubject req.subject = false then
    ⟨⟨400, false, none, some "Invalid subject", none⟩, db, []⟩
  else if req.body = "" ∨ 100000 < utf16Len req.body then
    ⟨⟨400, false, none, some "Invalid email body", none⟩, db, []⟩
  else
    match findSmtp db uid with
    | none =>
      ⟨⟨400, false, none, some "SMTP not configured. Please configure in Settings.", none⟩,
        db, []⟩
    | some _ =>
      if req.testMode then
        match smtpOutcome with
        | .ok _ =>
          ⟨⟨200, true, some "Test email sent successfully", none, none⟩, db,
            [req.recipientEmail]⟩
        | .error e =>
          ⟨⟨400, false, none, some e, none⟩, db, [req.recipientEmail]⟩
      else
        match req.queueItemId, req.campaignId with
        | some qid, some cid =>
          (match findCampaign db cid uid with
           | none => ⟨⟨404, false, none, some "Campaign not found", none⟩, db, []⟩
           | some _ =>
             match findQueueItem db qid cid with
             | none => ⟨⟨404, false, none, some "Queue item not found", none⟩, db, []⟩
             | some item =>
               if item.status = QStatus.sent ∨ item.status = QStatus.skipped then
                 ⟨⟨200, true, some "Already processed", none,
                    some (decide (item.status = QStatus.skipped))⟩, db, []⟩
               else
                 match findDuplicate db uid req.recipientEmail with
                 | some _ =>
                   ⟨⟨200, true, some "Duplicate skipped", none, some true⟩,
                     updateQueueStatus db qid QStatus.skipped, []⟩
                 | none =>
                   match smtpOutcome with
                   | .ok _ =>
                     ⟨⟨200, true, some "Email sent successfully", none, none⟩,
                       applySendSuccess db uid cid qid req.recipientEmail
                         req.subject, [req.recipientEmail]⟩
                   | .error _ =>
                     ⟨⟨500, false, none, some "Failed to send email", none⟩,
                       updateQueueStatus (updateQueueStatus db qid
                         QStatus.sending) qid QStatus.failed,
                       [req.recipientEmail]⟩)
        | _, _ =>
          ⟨⟨400, false, none,
             some "queueItemId and campaignId required for campaign emails", none⟩,
            db, []⟩

/-- Campaign status as the client page sees it. -/
inductive CStatus
  | draft
  | running
  | paused
  | completed
deriving DecidableEq, Repr

/-- The campaign record of the progress page. -/
structure CampaignC where
  id : Nat
  subject : String
  body : String
  interval_seconds : Nat
  total_recipients : Nat
  sent_count : Nat
  status : CStatus
deriving DecidableEq, Repr

/-- A queue item as the progress page holds it. -/
structure ClientQueueItem where
  id : Nat
  recipient_email : String
  status : QStatus
deriving DecidableEq, Repr

/-- In-memory state of the campaign-progress page: the campaign, the queue
(fetched ordered by `created_at` ascending), the `isRunningRef` flag, and
the `smtpConfigured` / `queueLoaded` guards. -/
structure ClientState where
  campaign : CampaignC
  queue : List ClientQueueItem
  isRunning : Bool
  smtpConfigured : Bool
  queueLoaded : Bool
deriving DecidableEq, Repr

/-- Result of one `processQueue` invocation: the state afterward and the
queue item attempted, if any. -/
structure TickResult where
  state : ClientState
  attempted : Option ClientQueueItem
deriving DecidableEq, Repr

/-- Local status bookkeeping of `sendEmail` (campaign page): on success the
item becomes `sent`, on failure `failed`. -/
def applySendOutcome (queue : List ClientQueueItem) (item : ClientQueueItem)
    (success : Bool) : List ClientQueueItem :=
  queue.map (fun q =>
    if q.id = item.id then
      { q with status := if success then QStatus.sent else QStatus.failed }
    else q)

/-- Model of `processQueue` (campaign page, lines 169-198) together with the
local updates done by `sendEmail`: bail out unless the campaign is running,
SMTP is configured and the queue is loaded; with no pending item, mark the
campaign completed and clear the running flag; otherwise attempt the first
pending item (`pendingEmails[0]`), whose status becomes `sent` or `failed`
according to `sendOutcome`, with the sent counter incremented on success. -/
def processQueue (s : ClientState) (sendOutcome : Bool) : TickResult :=
  if s.campaign.status ≠ CStatus.running ∨ s.smtpConfigured = false then ⟨s, none⟩
  else if s.queueLoaded = false then ⟨s, none⟩
  else
    match (s.queue.filter (fun q => q.status == QStatus.pending)).head? with
    | none =>
      let c2 := { s.campaign with status := CStatus.completed }
      ⟨{ s with campaign := c2, isRunning := false }, none⟩
    | some nextEmail =>
      let q2 := applySendOutcome s.queue nextEmail sendOutcome
      let c2 := if sendOutcome then
        { s.campaign with sent_count := s.campaign.sent_count + 1 }
      else s.campaign
      ⟨{ s with queue := q2, campaign := c2 }, some nextEmail⟩

/-- Model of the queue-processor start effect (lines 201-212): when the page
is not loading, the queue is loaded, the campaign is `running`, SMTP is
configured and the running flag is clear, the flag is set and `processQueue`
runs; nothing else happens before it. -/
def attachProcessor (s : ClientState) (loading : Bool) (sendOutcome : Bool) :
    TickResult :=
  if loading = false ∧ s.queueLoaded = true ∧ s.campaign.status = CStatus.running ∧
      s.smtpConfigured = true ∧ s.isRunning = false then
    processQueue { s with isRunning := true } sendOutcome
  else ⟨s, none⟩

/-- Substring test on character lists (used to state what the wire bytes
and error messages contain). -/
def containsSub (needle : List Char) : List Char → Bool
  | [] => needle.isEmpty
  | c :: t => needle.isPrefixOf (c :: t) || containsSub needle t


/-- A concrete SMTP settings row used by the concrete scenarios. -/
def smtpRow0 : SmtpSettingsRow :=
  ⟨7, "smtp.x.com", 587, "user", "pass", "from@x.com", "", "none"⟩

/-- A concrete SMTP client configuration used by the concrete scenarios. -/
def cfg0 : SmtpConfig := ⟨"smtp.x.com", 587, "user", "pass", "from@x.com", "", "none"⟩

/-- Concrete database: user 7 owns campaign 1 with one pending queue item. -/
def db0 : Db := ⟨[⟨1, 7, 0⟩], [⟨10, 1, "a@x.com", QStatus.pending⟩], [], [smtpRow0]⟩

/-- Concrete campaign-mode request for queue item 10 of campaign 1. -/
def req0 : SendEmailRequest := ⟨some 10, some 1, "a@x.com", "Hi", "Hello", false⟩

/-- Concrete test-mode request. -/
def reqTest : SendEmailRequest := ⟨none, none, "a@x.com", "Hi", "Hello", true⟩


/-- Rewrite of every queue row recipient as a function of the row id,
leaving ids, campaign references and statuses unchanged.  Used to state
that the handler never consults the stored queue recipient column. -/
def remapQueueEmails (f : Nat → String) (db : Db) : Db :=
  { db with queue := db.queue.map (fun q => { q with recipient_email := f q.id }) }

/-- A 500-character subject made of U+20AC (euro sign): 500 UTF-16 code
units but 1500 UTF-8 bytes. -/
def subjEuro : String := String.mk (List.replicate 500 (Char.ofNat 0x20AC))

/-- Campaign-mode request whose subject is `subjEuro`. -/
def reqEuro : SendEmailRequest := ⟨some 10, some 1, "a@x.com", subjEuro, "Hello", false⟩

/-- Database like `db0` but with a prior successful send to `a@x.com`
recorded for user 7 (under another campaign). -/
def dbDup : Db :=
  ⟨[⟨1, 7, 0⟩], [⟨10, 1, "a@x.com", QStatus.pending⟩],
   [⟨7, 99, "a@x.com", "Old", "sent"⟩], [smtpRow0]⟩

/-- Concrete campaign record of the client scenarios (running, interval 0). -/
def campaign0 : CampaignC := ⟨1, "Hi", "Hello", 0, 2, 0, CStatus.running⟩

/-- Client state on (re)attach: campaign running, queue holding an item
left in `sending` by an interrupted run followed by a pending item. -/
def clientS0 : ClientState :=
  ⟨campaign0, [⟨10, "a@x.com", QStatus.sending⟩, ⟨11, "b@x.com", QStatus.pending⟩],
   false, true, true⟩

/-- Client state on (re)attach where the interrupted `sending` item is the
only remaining work. -/
def clientS1 : ClientState :=
  ⟨campaign0, [⟨10, "a@x.com", QStatus.sending⟩], false, true, true⟩


/-- Campaign-mode request whose subject carries an embedded carriage
return. -/
def reqBadSubject : SendEmailRequest :=
  ⟨some 10, some 1, "a@x.com", "bad\rsubject", "Hello", false⟩

theorem replaceChar_append (t : Char) (r l m : List Char) :
    replaceChar t r (l ++ m) = replaceChar t r l ++ replaceChar t r m := by
  induction l with
  | nil => simp [replaceChar]
  | cons c cs ih => simp [replaceChar, ih]

theorem sanitizeHtml_append (l m : List Char) :
    sanitizeHtml (l ++ m) = sanitizeHtml l ++ sanitizeHtml m := by
  simp [sanitizeHtml, replaceChar_append]

theorem lf_not_mem_replaceBr (cs : List Char) :
    '\n' ∉ replaceChar '\n' "<br>".data cs := by
  induction cs with
  | nil => simp [replaceChar]
  | cons c cs ih =>
    simp only [replaceChar, List.mem_append]
    rintro (h1 | h2)
    · by_cases hc : c = '\n'
      · rw [if_pos hc] at h1
        revert h1
        decide
      · rw [if_neg hc] at h1
        simp at h1
        exact hc h1.symm
    · exact ih h2

theorem lf_not_mem_sanitizeHtml (cs : List Char) : '\n' ∉ sanitizeHtml cs :=
  lf_not_mem_replaceBr _

theorem normalizeCrlf_of_no_lf (cs : List Char) (h : '\n' ∉ cs) :
    normalizeCrlf cs = cs := by
  induction cs using normalizeCrlf.induct with
  | case1 rest ih => simp at h
  | case2 rest ih => simp at h
  | case3 c rest h1 h2 ih =>
    rw [normalizeCrlf]
    · rw [ih (fun m => h (List.mem_cons_of_mem c m))]
    · exact h1
    · exact h2
  | case4 => rfl

theorem dotStuffAux_of_no_lf (cs : List Char) (h : '\n' ∉ cs) :
    dotStuffAux cs = cs := by
  induction cs using dotStuffAux.induct with
  | case1 rest ih => simp at h
  | case2 c rest h1 ih =>
    rw [dotStuffAux]
    · rw [ih (fun m => h (List.mem_cons_of_mem c m))]
    · exact h1
  | case3 => rfl

theorem sanitizeHtml_dot_cons (cs : List Char) :
    sanitizeHtml ('.' :: cs) = '.' :: sanitizeHtml cs := by
  simp [sanitizeHtml, replaceChar]

/-- C6 (amended): composition-order of the message body pipeline.  HTML
escaping is applied first and exactly once — an occurrence of `<script>` in
the body surfaces as `&lt;script&gt;` — and it converts every newline to
`<br>`, so the subsequent CRLF normalization is the identity and
dot-stuffing doubles exactly the dot at the very start of the body (one
extra dot, applied once); a dot opening a later line of the body is merged
into a single `<br>`-joined line and is not stuffed. -/
theorem spec_c6_escape_then_stuff (l r rest : List Char) :
    sanitizeHtml (l ++ "<script>".data ++ r) =
      sanitizeHtml l ++ "&lt;script&gt;".data ++ sanitizeHtml r
    ∧ normalizeCrlf (sanitizeHtml r) = sanitizeHtml r
    ∧ htmlCrlf ('.' :: rest) = '.' :: '.' :: sanitizeHtml rest := by
  refine ⟨?_, ?_, ?_⟩
  · rw [sanitizeHtml_append, sanitizeHtml_append,
      show sanitizeHtml "<script>".data = "&lt;script&gt;".data by decide]
  · exact normalizeCrlf_of_no_lf _ (lf_not_mem_sanitizeHtml r)
  · unfold htmlCrlf
    rw [sanitizeHtml_dot_cons]
    have hnl : '\n' ∉ ('.' :: sanitizeHtml rest) := by
      intro hm
      rcases List.mem_cons.mp hm with h | h
      · exact absurd h (by decide)
      · exact lf_not_mem_sanitizeHtml rest h
    rw [normalizeCrlf_of_no_lf _ hnl]
    show '.' :: '.' :: dotStuffAux (sanitizeHtml rest) = _
    rw [dotStuffAux_of_no_lf _ (lf_not_mem_sanitizeHtml rest)]

/-- C6 counterexample: the body `a\n.b<script>x` contains `<script>` and a
line beginning with a dot, and the composed wire body does show the script
tag escaped — but it contains no doubled dot anywhere: the `.b` line was
merged by the newline-to-`<br>` conversion before dot-stuffing, so the
claimed `..` never appears. -/
theorem spec_c6_counterexample :
    containsSub "&lt;script&gt;".data (htmlCrlf "a\n.b<script>x".data) = true
    ∧ containsSub "..".data (htmlCrlf "a\n.b<script>x".data) = false := by
  decide

/-- C8: the SMTP connection is closed exactly when it was opened — on the
success path, on every protocol-error path and on every thrown exception
(the `finally` of `sendEmailViaSMTP`); when validation or the connect call
itself fails, no connection ever exists.  The connection is never leaked. -/
theorem spec_c8_connection_never_leaked (smtp : SmtpConfig)
    (toAddress subject body : String) (connectError tlsOutcome : Option String)
    (script : List SmtpReply) :
    (sendEmailViaSMTP smtp toAddress subject body connectError tlsOutcome
      script).closed =
    (sendEmailViaSMTP smtp toAddress subject body connectError tlsOutcome
      script).opened := by
  unfold sendEmailViaSMTP
  dsimp only
  repeat' split
  all_goals rfl

theorem wireCmd_fallback_spec (rnext : SmtpReply) (rest : List SmtpReply)
    (ws2 : List String) (c : String) :
    wireWritten (wireCmd ⟨rnext :: rest, ws2⟩ c [235, 503]) = ws2 ++ [c]
    ∧ ((wireCmd ⟨rnext :: rest, ws2⟩ c [235, 503]).isOk = true ↔
        ∃ cn, rnext.code = some cn ∧ (cn = 235 ∨ cn = 503)) := by
  simp only [wireCmd, wireReadExpected, wireRead]
  constructor
  · cases hcode : rnext.code with
    | none => simp [wireWritten]
    | some c2 =>
      by_cases hor : c2 = 235 ∨ c2 = 503
      · simp [assertExpected, hor, wireWritten]
      · simp [assertExpected, hor, wireWritten]
  · cases hcode : rnext.code with
    | none => simp [Except.isOk, Except.toBool]
    | some c2 =>
      by_cases hor : c2 = 235 ∨ c2 = 503
      · simp [assertExpected, hor, Except.isOk, Except.toBool]
      · simp [assertExpected, hor, Except.isOk, Except.toBool]

/-- C5 (amended): the Transport first attempts `AUTH LOGIN`, expecting 334
after the command, 334 after the base64 username and 235 after the base64
password (first conjunct: on exactly those replies the LOGIN path succeeds).
If any of the three steps is rejected — the `AUTH LOGIN` command itself
(second conjunct), the base64 username (third), or the base64 password
(fourth, e.g. a 535) — a single `AUTH PLAIN` command carrying the base64
SASL blob `\0username\0password` is sent next, and in every case the
fallback succeeds exactly when the server replies 235 or 503 — not only on
235. -/
theorem spec_c5_auth_login_then_plain (username password : String)
    (hu : username.data.all (fun c => decide (c.toNat < 256)) = true)
    (hp : password.data.all (fun c => decide (c.toNat < 256)) = true)
    (ws : List String) :
    (∀ ra rb rc rest2, SmtpReply.code ra = some 334 →
      SmtpReply.code rb = some 334 → SmtpReply.code rc = some 235 →
      authStep ⟨ra :: rb :: rc :: rest2, ws⟩ username password =
        .ok ⟨rest2, ws ++ ["AUTH LOGIN", latin1B64 username, latin1B64 password]⟩)
    ∧ (∀ r1 r2 rest c1, SmtpReply.code r1 = some c1 → c1 ≠ 334 →
        wireWritten (authStep ⟨r1 :: r2 :: rest, ws⟩ username password) =
          ws ++ ["AUTH LOGIN",
            "AUTH PLAIN " ++ latin1B64 ("\x00" ++ username ++ "\x00" ++ password)]
        ∧ ((authStep ⟨r1 :: r2 :: rest, ws⟩ username password).isOk = true ↔
            ∃ c2, SmtpReply.code r2 = some c2 ∧ (c2 = 235 ∨ c2 = 503)))
    ∧ (∀ r1 r2 r3 rest c2, SmtpReply.code r1 = some 334 →
        SmtpReply.code r2 = some c2 → c2 ≠ 334 →
        wireWritten (authStep ⟨r1 :: r2 :: r3 :: rest, ws⟩ username password) =
          ws ++ ["AUTH LOGIN", latin1B64 username,
            "AUTH PLAIN " ++ latin1B64 ("\x00" ++ username ++ "\x00" ++ password)]
        ∧ ((authStep ⟨r1 :: r2 :: r3 :: rest, ws⟩ username password).isOk = true ↔
            ∃ c3, SmtpReply.code r3 = some c3 ∧ (c3 = 235 ∨ c3 = 503)))
    ∧ (∀ r1 r2 r3 r4 rest c3, SmtpReply.code r1 = some 334 →
        SmtpReply.code r2 = some 334 → SmtpReply.code r3 = some c3 → c3 ≠ 235 →
        wireWritten (authStep ⟨r1 :: r2 :: r3 :: r4 :: rest, ws⟩ username password) =
          ws ++ ["AUTH LOGIN", latin1B64 username, latin1B64 password,
            "AUTH PLAIN " ++ latin1B64 ("\x00" ++ username ++ "\x00" ++ password)]
        ∧ ((authStep ⟨r1 :: r2 :: r3 :: r4 :: rest, ws⟩ username password).isOk
              = true ↔
            ∃ c4, SmtpReply.code r4 = some c4 ∧ (c4 = 235 ∨ c4 = 503))) := by
  have hbu : toBase64 username = some (latin1B64 username) := by
    simp [toBase64, hu]
  have hbp : toBase64 password = some (latin1B64 password) := by
    simp [toBase64, hp]
  have h0 : "\x00".data.all (fun c => decide (c.toNat < 256)) = true := by decide
  have hblob : toBase64 ("\x00" ++ username ++ "\x00" ++ password) =
      some (latin1B64 ("\x00" ++ username ++ "\x00" ++ password)) := by
    simp only [toBase64, String.data_append, List.all_append, hu, hp, h0]
    simp
  refine ⟨?_, ?_, ?_, ?_⟩
  · intro ra rb rc rest2 ha hb hc
    simp [authStep, authLogin, wireCmd, wireReadExpected, wireRead,
      ha, hb, hc, assertExpected, hbu, hbp, List.append_assoc]
  · intro r1 r2 rest c1 hc1 hne
    have hfail : authLogin ⟨r1 :: r2 :: rest, ws⟩ username password =
        .error ("SMTP unexpected response for AUTH LOGIN: got " ++ toString c1 ++
          "\n" ++ r1.raw, ⟨r2 :: rest, ws ++ ["AUTH LOGIN"]⟩) := by
      simp only [authLogin, wireCmd, wireReadExpected, wireRead, hc1,
        assertExpected]
      simp [hne]
    have hstep : authStep ⟨r1 :: r2 :: rest, ws⟩ username password =
        wireCmd ⟨r2 :: rest, ws ++ ["AUTH LOGIN"]⟩
          ("AUTH PLAIN " ++ latin1B64 ("\x00" ++ username ++ "\x00" ++ password))
          [235, 503] := by
      simp only [authStep, hfail, hblob]
    rw [hstep]
    have h2 := wireCmd_fallback_spec r2 rest (ws ++ ["AUTH LOGIN"])
      ("AUTH PLAIN " ++ latin1B64 ("\x00" ++ username ++ "\x00" ++ password))
    refine ⟨?_, h2.2⟩
    rw [h2.1]
    simp
  · intro r1 r2 r3 rest c2 h1 h2c hne
    have hfail : authLogin ⟨r1 :: r2 :: r3 :: rest, ws⟩ username password =
        .error ("SMTP unexpected response for " ++ latin1B64 username ++
          ": got " ++ toString c2 ++ "\n" ++ r2.raw,
          ⟨r3 :: rest, ws ++ ["AUTH LOGIN", latin1B64 username]⟩) := by
      simp only [authLogin, wireCmd, wireReadExpected, wireRead, h1, h2c,
        assertExpected, hbu]
      simp [h1, h2c, hne, List.append_assoc]
    have hstep : authStep ⟨r1 :: r2 :: r3 :: rest, ws⟩ username password =
        wireCmd ⟨r3 :: rest, ws ++ ["AUTH LOGIN", latin1B64 username]⟩
          ("AUTH PLAIN " ++ latin1B64 ("\x00" ++ username ++ "\x00" ++ password))
          [235, 503] := by
      simp only [authStep, hfail, hblob]
    rw [hstep]
    have h2 := wireCmd_fallback_spec r3 rest
      (ws ++ ["AUTH LOGIN", latin1B64 username])
      ("AUTH PLAIN " ++ latin1B64 ("\x00" ++ username ++ "\x00" ++ password))
    refine ⟨?_, h2.2⟩
    rw [h2.1]
    simp
  · intro r1 r2 r3 r4 rest c3 h1 h2c h3c hne
    have hfail : authLogin ⟨r1 :: r2 :: r3 :: r4 :: rest, ws⟩ username password =
        .error ("SMTP unexpected response for " ++ latin1B64 password ++
          ": got " ++ toString c3 ++ "\n" ++ r3.raw,
          ⟨r4 :: rest,
            ws ++ ["AUTH LOGIN", latin1B64 username, latin1B64 password]⟩) := by
      simp only [authLogin, wireCmd, wireReadExpected, wireRead, h1, h2c, h3c,
        assertExpected, hbu, hbp]
      simp [h1, h2c, h3c, hne, List.append_assoc]
    have hstep : authStep ⟨r1 :: r2 :: r3 :: r4 :: rest, ws⟩ username password =
        wireCmd ⟨r4 :: rest,
            ws ++ ["AUTH LOGIN", latin1B64 username, latin1B64 password]⟩
          ("AUTH PLAIN " ++ latin1B64 ("\x00" ++ username ++ "\x00" ++ password))
          [235, 503] := by
      simp only [authStep, hfail, hblob]
    rw [hstep]
    have h2 := wireCmd_fallback_spec r4 rest
      (ws ++ ["AUTH LOGIN", latin1B64 username, latin1B64 password])
      ("AUTH PLAIN " ++ latin1B64 ("\x00" ++ username ++ "\x00" ++ password))
    refine ⟨?_, h2.2⟩
    rw [h2.1]
    simp

/-- C5 witness: concrete credentials, covering the LOGIN happy path and the
fallback after rejection at the command, username and password steps. -/
theorem spec_c5_witness :
    (∀ ra rb rc rest2, SmtpReply.code ra = some 334 →
      SmtpReply.code rb = some 334 → SmtpReply.code rc = some 235 →
      authStep ⟨ra :: rb :: rc :: rest2, []⟩ "user" "pass" =
        .ok ⟨rest2, [] ++ ["AUTH LOGIN", latin1B64 "user", latin1B64 "pass"]⟩)
    ∧ (∀ r1 r2 rest c1, SmtpReply.code r1 = some c1 → c1 ≠ 334 →
        wireWritten (authStep ⟨r1 :: r2 :: rest, []⟩ "user" "pass") =
          [] ++ ["AUTH LOGIN",
            "AUTH PLAIN " ++ latin1B64 ("\x00" ++ "user" ++ "\x00" ++ "pass")]
        ∧ ((authStep ⟨r1 :: r2 :: rest, []⟩ "user" "pass").isOk = true ↔
            ∃ c2, SmtpReply.code r2 = some c2 ∧ (c2 = 235 ∨ c2 = 503)))
    ∧ (∀ r1 r2 r3 rest c2, SmtpReply.code r1 = some 334 →
        SmtpReply.code r2 = some c2 → c2 ≠ 334 →
        wireWritten (authStep ⟨r1 :: r2 :: r3 :: rest, []⟩ "user" "pass") =
          [] ++ ["AUTH LOGIN", latin1B64 "user",
            "AUTH PLAIN " ++ latin1B64 ("\x00" ++ "user" ++ "\x00" ++ "pass")]
        ∧ ((authStep ⟨r1 :: r2 :: r3 :: rest, []⟩ "user" "pass").isOk = true ↔
            ∃ c3, SmtpReply.code r3 = some c3 ∧ (c3 = 235 ∨ c3 = 503)))
    ∧ (∀ r1 r2 r3 r4 rest c3, SmtpReply.code r1 = some 334 →
        SmtpReply.code r2 = some 334 → SmtpReply.code r3 = some c3 → c3 ≠ 235 →
        wireWritten (authStep ⟨r1 :: r2 :: r3 :: r4 :: rest, []⟩ "user" "pass") =
          [] ++ ["AUTH LOGIN", latin1B64 "user", latin1B64 "pass",
            "AUTH PLAIN " ++ latin1B64 ("\x00" ++ "user" ++ "\x00" ++ "pass")]
        ∧ ((authStep ⟨r1 :: r2 :: r3 :: r4 :: rest, []⟩ "user" "pass").isOk
              = true ↔
            ∃ c4, SmtpReply.code r4 = some c4 ∧ (c4 = 235 ∨ c4 = 503))) :=
  spec_c5_auth_login_then_plain "user" "pass" (by decide) (by decide) []
/-- C5 counterexample: with `AUTH LOGIN` rejected (504) and `AUTH PLAIN`
answered 503 — not 235 — the authentication step nevertheless succeeds, so
the fallback does not succeed exactly on 235. -/
theorem spec_c5_counterexample :
    (authStep ⟨[⟨some 504, "504 mechanism not supported"⟩,
      ⟨some 503, "503 already authenticated"⟩], []⟩ "user" "pass").isOk = true
    ∧ SmtpReply.code ⟨some 503, "503 already authenticated"⟩ ≠ some 235 := by
  constructor
  · decide
  · decide

/-- C2: with a prior successful send recorded for this user and recipient
(global per-user scope) and a not-yet-finalized queue item, the handler
marks the queue item `skipped`, contacts no Transport, leaves the campaign
counters and the sent history untouched, and returns a 200 success with
`skipped = true`. -/
theorem spec_c2_duplicate_skip (db : Db) (uid : Nat) (req : SendEmailRequest)
    (oracle : Except String Unit) (qid cid : Nat) (srow : SmtpSettingsRow)
    (crow : CampaignRow) (item : QueueRow) (drow : SentRow)
    (hTest : req.testMode = false)
    (hqid : req.queueItemId = some qid) (hcid : req.campaignId = some cid)
    (hr : req.recipientEmail ≠ "") (hrv : isValidEmail req.recipientEmail = true)
    (hs : req.subject ≠ "") (hsv : isValidSubject req.subject = true)
    (hb : req.body ≠ "") (hbl : utf16Len req.body ≤ 100000)
    (hsmtp : findSmtp db uid = some srow)
    (hcamp : findCampaign db cid uid = some crow)
    (hitem : findQueueItem db qid cid = some item)
    (hns : item.status ≠ QStatus.sent) (hnk : item.status ≠ QStatus.skipped)
    (hdup : findDuplicate db uid req.recipientEmail = some drow) :
    handleSend db uid req oracle =
      ⟨⟨200, true, some "Duplicate skipped", none, some true⟩,
        updateQueueStatus db qid QStatus.skipped, []⟩
    ∧ (handleSend db uid req oracle).db.campaigns = db.campaigns
    ∧ (handleSend db uid req oracle).db.sent = db.sent := by
  have hbl2 : ¬(100000 < utf16Len req.body) := not_lt.mpr hbl
  have hmain : handleSend db uid req oracle =
      ⟨⟨200, true, some "Duplicate skipped", none, some true⟩,
        updateQueueStatus db qid QStatus.skipped, []⟩ := by
    simp [handleSend, hr, hrv, hs, hsv, hb, hbl2, hTest, hqid, hcid,
      hsmtp, hcamp, hitem, hns, hnk, hdup]
  refine ⟨hmain, ?_, ?_⟩ <;> rw [hmain] <;> rfl

/-- C2 witness: concrete database with a prior send to `a@x.com` recorded
under another campaign of the same user. -/
theorem spec_c2_witness :
    handleSend dbDup 7 req0 (.ok ()) =
      ⟨⟨200, true, some "Duplicate skipped", none, some true⟩,
        updateQueueStatus dbDup 10 QStatus.skipped, []⟩
    ∧ (handleSend dbDup 7 req0 (.ok ())).db.campaigns = dbDup.campaigns
    ∧ (handleSend dbDup 7 req0 (.ok ())).db.sent = dbDup.sent :=
  spec_c2_duplicate_skip dbDup 7 req0 (.ok ()) 10 1 smtpRow0 ⟨1, 7, 0⟩
    ⟨10, 1, "a@x.com", QStatus.pending⟩ ⟨7, 99, "a@x.com", "Old", "sent"⟩
    (by decide) (by decide) (by decide) (by decide) (by decide) (by decide)
    (by decide) (by decide) (by decide) (by decide) (by decide) (by decide)
    (by decide) (by decide) (by decide)

/-- C1 (amended): a second campaign-mode invocation for a queue item whose
status is already `sent` (finalized by a prior successful invocation)
returns a 200 success with message `Already processed` and `skipped = false`
(the flag reflects the finalized status, so it is not a `skipped` outcome),
inserts no new SentRecord, changes nothing in the database, and performs no
SMTP delivery. -/
theorem spec_c1_already_processed (db : Db) (uid : Nat) (req : SendEmailRequest)
    (oracle : Except String Unit) (qid cid : Nat) (srow : SmtpSettingsRow)
    (crow : CampaignRow) (item : QueueRow)
    (hTest : req.testMode = false)
    (hqid : req.queueItemId = some qid) (hcid : req.campaignId = some cid)
    (hr : req.recipientEmail ≠ "") (hrv : isValidEmail req.recipientEmail = true)
    (hs : req.subject ≠ "") (hsv : isValidSubject req.subject = true)
    (hb : req.body ≠ "") (hbl : utf16Len req.body ≤ 100000)
    (hsmtp : findSmtp db uid = some srow)
    (hcamp : findCampaign db cid uid = some crow)
    (hitem : findQueueItem db qid cid = some item)
    (hsent : item.status = QStatus.sent) :
    handleSend db uid req oracle =
      ⟨⟨200, true, some "Already processed", none, some false⟩, db, []⟩ := by
  have hbl2 : ¬(100000 < utf16Len req.body) := not_lt.mpr hbl
  simp [handleSend, hr, hrv, hs, hsv, hb, hbl2, hTest, hqid, hcid,
    hsmtp, hcamp, hitem, hsent]

/-- C1 witness: the database after a first successful invocation for queue
item 10, invoked again with the same request. -/
theorem spec_c1_witness :
    handleSend (handleSend db0 7 req0 (.ok ())).db 7 req0 (.ok ()) =
      ⟨⟨200, true, some "Already processed", none, some false⟩,
        (handleSend db0 7 req0 (.ok ())).db, []⟩ :=
  spec_c1_already_processed (handleSend db0 7 req0 (.ok ())).db 7 req0 (.ok ())
    10 1 smtpRow0 ⟨1, 7, 1⟩ ⟨10, 1, "a@x.com", QStatus.sent⟩
    (by decide) (by decide) (by decide) (by decide) (by decide) (by decide)
    (by decide) (by decide) (by decide) (by decide) (by decide) (by decide)
    (by decide)

/-- C1 counterexample: after a first successful invocation (with success
status 200), the second invocation for the same queue item returns
`skipped = false`, not the `skipped` outcome the claim states — the item is
`sent`, so the echoed flag is false. -/
theorem spec_c1_counterexample :
    (handleSend db0 7 req0 (.ok ())).response.statusCode = 200
    ∧ (handleSend (handleSend db0 7 req0 (.ok ())).db 7 req0 (.ok ())).response.skipped =
        some false := by
  constructor
  · decide
  · decide

/-- C4 (amended): in campaign mode, whatever message the Transport throws,
the caller-visible error is the fixed string `Failed to send email` — never
the raw server text — the queue item is marked `failed` (a `sending` then
`failed` status write), no SentRecord is inserted and no counter changes.
In test mode, however, the raw thrown message is returned verbatim to the
caller (see the counterexample). -/
theorem spec_c4_generic_failure (db : Db) (uid : Nat) (req : SendEmailRequest)
    (msg : String) (qid cid : Nat) (srow : SmtpSettingsRow)
    (crow : CampaignRow) (item : QueueRow)
    (hTest : req.testMode = false)
    (hqid : req.queueItemId = some qid) (hcid : req.campaignId = some cid)
    (hr : req.recipientEmail ≠ "") (hrv : isValidEmail req.recipientEmail = true)
    (hs : req.subject ≠ "") (hsv : isValidSubject req.subject = true)
    (hb : req.body ≠ "") (hbl : utf16Len req.body ≤ 100000)
    (hsmtp : findSmtp db uid = some srow)
    (hcamp : findCampaign db cid uid = some crow)
    (hitem : findQueueItem db qid cid = some item)
    (hns : item.status ≠ QStatus.sent) (hnk : item.status ≠ QStatus.skipped)
    (hdup : findDuplicate db uid req.recipientEmail = none) :
    handleSend db uid req (.error msg) =
      ⟨⟨500, false, none, some "Failed to send email", none⟩,
        updateQueueStatus (updateQueueStatus db qid QStatus.sending) qid
          QStatus.failed, [req.recipientEmail]⟩
    ∧ (handleSend db uid req (.error msg)).db.sent = db.sent
    ∧ (handleSend db uid req (.error msg)).db.campaigns = db.campaigns := by
  have hbl2 : ¬(100000 < utf16Len req.body) := not_lt.mpr hbl
  have hmain : handleSend db uid req (.error msg) =
      ⟨⟨500, false, none, some "Failed to send email", none⟩,
        updateQueueStatus (updateQueueStatus db qid QStatus.sending) qid
          QStatus.failed, [req.recipientEmail]⟩ := by
    simp [handleSend, hr, hrv, hs, hsv, hb, hbl2, hTest, hqid, hcid,
      hsmtp, hcamp, hitem, hns, hnk, hdup]
  refine ⟨hmain, ?_, ?_⟩ <;> rw [hmain] <;> rfl

/-- C4 witness: concrete protocol error in campaign mode. -/
theorem spec_c4_witness :
    handleSend db0 7 req0
        (.error "SMTP unexpected response for greeting: got 554\n554 nope") =
      ⟨⟨500, false, none, some "Failed to send email", none⟩,
        updateQueueStatus (updateQueueStatus db0 10 QStatus.sending) 10
          QStatus.failed, ["a@x.com"]⟩
    ∧ (handleSend db0 7 req0
        (.error "SMTP unexpected response for greeting: got 554\n554 nope")).db.sent =
        db0.sent
    ∧ (handleSend db0 7 req0
        (.error "SMTP unexpected response for greeting: got 554\n554 nope")).db.campaigns =
        db0.campaigns :=
  spec_c4_generic_failure db0 7 req0
    "SMTP unexpected response for greeting: got 554\n554 nope" 10 1 smtpRow0
    ⟨1, 7, 0⟩ ⟨10, 1, "a@x.com", QStatus.pending⟩
    (by decide) (by decide) (by decide) (by decide) (by decide) (by decide)
    (by decide) (by decide) (by decide) (by decide) (by decide) (by decide)
    (by decide) (by decide) (by decide)

/-- C4 counterexample: in test mode a protocol error is surfaced verbatim —
the caller-visible error equals the thrown message, and that message embeds
the raw server text `554 mx1.internal refuses` — so the claim does not hold
in every invocation mode. -/
theorem spec_c4_counterexample :
    (handleSend db0 7 reqTest
      (sendEmailViaSMTP cfg0 "a@x.com" "Hi" "Hello" none none
        [⟨some 554, "554 mx1.internal refuses"⟩]).result).response.error =
      some "SMTP unexpected response for greeting: got 554\n554 mx1.internal refuses"
    ∧ containsSub "554 mx1.internal refuses".data
        "SMTP unexpected response for greeting: got 554\n554 mx1.internal refuses".data =
        true
    ∧ reqTest.testMode = true := by
  refine ⟨?_, ?_, ?_⟩ <;> decide

/-- C7 (amended): a subject containing a carriage return or line feed, or
longer than 998 UTF-16 code units (the JavaScript string length the code
checks, not UTF-8 bytes), or a body longer than 100000 UTF-16 code units,
is rejected with a 400 outcome before any SMTP contact and without any
database change. -/
theorem spec_c7_validation_rejects (db : Db) (uid : Nat)
    (req : SendEmailRequest) (oracle : Except String Unit)
    (h : req.subject.data.any (fun c => c == '\r' || c == '\n') = true
      ∨ 998 < utf16Len req.subject
      ∨ 100000 < utf16Len req.body) :
    (handleSend db uid req oracle).response.statusCode = 400
    ∧ (handleSend db uid req oracle).response.success = false
    ∧ (handleSend db uid req oracle).db = db
    ∧ (handleSend db uid req oracle).smtpAttempts = [] := by
  by_cases v1 : req.recipientEmail = "" ∨ isValidEmail req.recipientEmail = false
  · simp [handleSend, v1]
  · by_cases v2 : req.subject = "" ∨ isValidSubject req.subject = false
    · simp [handleSend, v1, v2]
    · have hsv : isValidSubject req.subject = true := by
        rcases Bool.eq_false_or_eq_true (isValidSubject req.subject) with hb | hb
        · exact hb
        · exact absurd (Or.inr hb) v2
      rw [isValidSubject, Bool.and_eq_true] at hsv
      obtain ⟨hnoCRLF, hlen⟩ := hsv
      have hb3 : req.body = "" ∨ 100000 < utf16Len req.body := by
        rcases h with h | h | h
        · rw [h] at hnoCRLF
          exact absurd hnoCRLF (by decide)
        · exact absurd (of_decide_eq_true hlen) (not_le.mpr h)
        · exact Or.inr h
      simp [handleSend, v1, v2, hb3]

/-- C7 witness: a subject with an embedded carriage return is rejected with
400 and no state change. -/
theorem spec_c7_witness :
    (handleSend db0 7 reqBadSubject (.ok ())).response.statusCode = 400
    ∧ (handleSend db0 7 reqBadSubject (.ok ())).response.success = false
    ∧ (handleSend db0 7 reqBadSubject (.ok ())).db = db0
    ∧ (handleSend db0 7 reqBadSubject (.ok ())).smtpAttempts = [] :=
  spec_c7_validation_rejects db0 7 reqBadSubject (.ok ()) (Or.inl (by decide))

/-- C7 counterexample: a 500-character euro-sign subject is 1500 UTF-8
bytes — beyond the claimed 998-byte cap — yet the request is accepted and
delivered (status 200 with an SMTP attempt), because the code checks the
UTF-16 length (500), not bytes. -/
theorem spec_c7_counterexample :
    998 < utf8ByteLen reqEuro.subject
    ∧ (handleSend db0 7 reqEuro (.ok ())).response.statusCode = 200
    ∧ (handleSend db0 7 reqEuro (.ok ())).response.success = true
    ∧ (handleSend db0 7 reqEuro (.ok ())).smtpAttempts = ["a@x.com"] := by
  refine ⟨?_, ?_, ?_, ?_⟩ <;> decide

theorem find?_map_local {α β : Type} (f : α → β) (p : β → Bool) (l : List α) :
    (l.map f).find? p = (l.find? (fun a => p (f a))).map f := by
  induction l with
  | nil => rfl
  | cons a l ih =>
    by_cases h : p (f a)
    · simp [List.find?, h]
    · simp [List.find?, h, ih]

theorem findSmtp_remap (f : Nat → String) (db : Db) (uid : Nat) :
    findSmtp (remapQueueEmails f db) uid = findSmtp db uid := rfl

theorem findCampaign_remap (f : Nat → String) (db : Db) (cid uid : Nat) :
    findCampaign (remapQueueEmails f db) cid uid = findCampaign db cid uid := rfl

theorem findCampaignById_remap (f : Nat → String) (db : Db) (cid : Nat) :
    findCampaignById (remapQueueEmails f db) cid = findCampaignById db cid := rfl

theorem findDuplicate_remap (f : Nat → String) (db : Db) (uid : Nat) (r : String) :
    findDuplicate (remapQueueEmails f db) uid r = findDuplicate db uid r := rfl

theorem findQueueItem_remap (f : Nat → String) (db : Db) (qid cid : Nat) :
    findQueueItem (remapQueueEmails f db) qid cid =
      (findQueueItem db qid cid).map
        (fun q => { q with recipient_email := f q.id }) := by
  unfold findQueueItem remapQueueEmails
  rw [find?_map_local]

theorem updateQueueStatus_remap (f : Nat → String) (db : Db) (qid : Nat)
    (st : QStatus) :
    updateQueueStatus (remapQueueEmails f db) qid st =
      remapQueueEmails f (updateQueueStatus db qid st) := by
  unfold updateQueueStatus remapQueueEmails
  simp only [List.map_map]
  have hfun : ((fun q : QueueRow => if q.id = qid then { q with status := st } else q) ∘
        fun q : QueueRow => { q with recipient_email := f q.id }) =
      ((fun q : QueueRow => { q with recipient_email := f q.id }) ∘
        fun q : QueueRow => if q.id = qid then { q with status := st } else q) := by
    funext q
    by_cases h : q.id = qid
    · simp [Function.comp, h]
    · simp [Function.comp, h]
  rw [hfun]

theorem handleSend_attempts (db : Db) (uid : Nat) (req : SendEmailRequest)
    (oracle : Except String Unit) :
    ∀ a ∈ (handleSend db uid req oracle).smtpAttempts, a = req.recipientEmail := by
  intro a ha
  unfold handleSend at ha
  repeat' split at ha
  all_goals simp_all

theorem insertSentRow_remap (f : Nat → String) (db : Db) (uid cid : Nat)
    (r s : String) :
    insertSentRow (remapQueueEmails f db) uid cid r s =
      remapQueueEmails f (insertSentRow db uid cid r s) := rfl

theorem bumpSentCount_remap (f : Nat → String) (db : Db) (cid : Nat) :
    bumpSentCount (remapQueueEmails f db) cid =
      remapQueueEmails f (bumpSentCount db cid) := by
  unfold bumpSentCount
  rw [findCampaignById_remap]
  rcases hcb : findCampaignById db cid with _ | c
  · rfl
  · rfl

theorem applySendSuccess_remap (f : Nat → String) (db : Db)
    (uid cid qid : Nat) (r s : String) :
    applySendSuccess (remapQueueEmails f db) uid cid qid r s =
      remapQueueEmails f (applySendSuccess db uid cid qid r s) := by
  unfold applySendSuccess
  rw [updateQueueStatus_remap, updateQueueStatus_remap, insertSentRow_remap,
    bumpSentCount_remap]

/-- C10: the recipient delivered to and the recipient used for the
duplicate lookup come from the request body, never from the stored queue
row.  Rewriting every queue row recipient to anything whatsoever changes
neither the response nor the SMTP attempts, and changes the resulting
database only by that same rewrite; and every SMTP attempt the handler
makes is addressed to the request recipient. -/
theorem spec_c10_request_recipient_authoritative (db : Db) (uid : Nat)
    (req : SendEmailRequest) (oracle : Except String Unit) (f : Nat → String) :
    handleSend (remapQueueEmails f db) uid req oracle =
      ⟨(handleSend db uid req oracle).response,
        remapQueueEmails f (handleSend db uid req oracle).db,
        (handleSend db uid req oracle).smtpAttempts⟩
    ∧ ∀ a ∈ (handleSend db uid req oracle).smtpAttempts,
        a = req.recipientEmail := by
  refine ⟨?_, handleSend_attempts db uid req oracle⟩
  by_cases v1 : req.recipientEmail = "" ∨ isValidEmail req.recipientEmail = false
  · simp [handleSend, v1]
  by_cases v2 : req.subject = "" ∨ isValidSubject req.subject = false
  · simp [handleSend, v1, v2]
  by_cases v3 : req.body = "" ∨ 100000 < utf16Len req.body
  · simp [handleSend, v1, v2, v3]
  cases hs : findSmtp db uid with
  | none => simp [handleSend, v1, v2, v3, findSmtp_remap, hs]
  | some srow =>
    cases ht : req.testMode with
    | true =>
      cases oracle with
      | ok u => simp [handleSend, v1, v2, v3, findSmtp_remap, hs, ht]
      | error e => simp [handleSend, v1, v2, v3, findSmtp_remap, hs, ht]
    | false =>
      cases hqo : req.queueItemId with
      | none => simp [handleSend, v1, v2, v3, findSmtp_remap, hs, ht, hqo]
      | some qid =>
        cases hco : req.campaignId with
        | none => simp [handleSend, v1, v2, v3, findSmtp_remap, hs, ht, hqo, hco]
        | some cid =>
          cases hcamp : findCampaign db cid uid with
          | none =>
            simp [handleSend, v1, v2, v3, findSmtp_remap, hs, ht, hqo, hco,
              findCampaign_remap, hcamp]
          | some crow =>
            cases hitem : findQueueItem db qid cid with
            | none =>
              simp [handleSend, v1, v2, v3, findSmtp_remap, hs, ht, hqo, hco,
                findCampaign_remap, hcamp, findQueueItem_remap, hitem]
            | some item =>
              by_cases hfin : item.status = QStatus.sent ∨
                  item.status = QStatus.skipped
              · simp [handleSend, v1, v2, v3, findSmtp_remap, hs, ht, hqo, hco,
                  findCampaign_remap, hcamp, findQueueItem_remap, hitem, hfin]
              · cases hdup : findDuplicate db uid req.recipientEmail with
                | some drow =>
                  simp [handleSend, v1, v2, v3, findSmtp_remap, hs, ht, hqo, hco,
                    findCampaign_remap, hcamp, findQueueItem_remap, hitem, hfin,
                    findDuplicate_remap, hdup, updateQueueStatus_remap]
                | none =>
                  cases oracle with
                  | error e =>
                    simp [handleSend, v1, v2, v3, findSmtp_remap, hs, ht, hqo,
                      hco, findCampaign_remap, hcamp, findQueueItem_remap, hitem,
                      hfin, findDuplicate_remap, hdup, updateQueueStatus_remap]
                  | ok u =>
                    simp [handleSend, v1, v2, v3, findSmtp_remap, hs, ht, hqo,
                      hco, findCampaign_remap, hcamp, findQueueItem_remap, hitem,
                      hfin, findDuplicate_remap, hdup, applySendSuccess_remap]

theorem find?_split {α : Type} (p : α → Bool) (l : List α) (a : α)
    (h : l.find? p = some a) :
    p a = true ∧ ∃ pre post, l = pre ++ a :: post ∧ ∀ x ∈ pre, p x = false := by
  induction l with
  | nil => simp at h
  | cons c l ih =>
    cases hc : p c with
    | true =>
      simp [List.find?, hc] at h
      subst h
      exact ⟨hc, [], l, rfl, by intro x hx; simp at hx⟩
    | false =>
      simp [List.find?, hc] at h
      obtain ⟨hpa, pre, post, heq, hall⟩ := ih h
      refine ⟨hpa, c :: pre, post, by rw [heq]; rfl, ?_⟩
      intro x hx
      rcases List.mem_cons.mp hx with hx | hx
      · rw [hx]; exact hc
      · exact hall x hx

/-- C9: whenever a tick of the client scheduler attempts an item, that item
is pending and is the first pending item of the queue as fetched (which is
`created_at` ascending order): every item created before it is not pending,
so a later-created recipient is never attempted while an earlier-created
one is still pending. -/
theorem spec_c9_fifo_selection (s : ClientState) (sendOutcome : Bool)
    (i : ClientQueueItem)
    (h : (processQueue s sendOutcome).attempted = some i) :
    i.status = QStatus.pending
    ∧ ∃ pre post, s.queue = pre ++ i :: post
        ∧ ∀ j ∈ pre, j.status ≠ QStatus.pending := by
  unfold processQueue at h
  by_cases v1 : s.campaign.status ≠ CStatus.running ∨ s.smtpConfigured = false
  · rw [if_pos v1] at h
    simp at h
  rw [if_neg v1] at h
  by_cases v2 : s.queueLoaded = false
  · rw [if_pos v2] at h
    simp at h
  rw [if_neg v2] at h
  cases hh : (s.queue.filter (fun q => q.status == QStatus.pending)).head? with
  | none =>
    rw [hh] at h
    simp at h
  | some nextEmail =>
    rw [hh] at h
    simp at h
    rw [h] at hh
    have hf : s.queue.find? (fun q => q.status == QStatus.pending) = some i := by
      simpa using hh
    obtain ⟨hpa, pre, post, heq, hall⟩ :=
      find?_split (fun q => q.status == QStatus.pending) s.queue i hf
    refine ⟨by simpa using hpa, pre, post, heq, ?_⟩
    intro j hj
    simpa using hall j hj

/-- C9 witness: in a queue holding a non-pending item followed by a pending
item, the attempted item is the pending one and everything before it is not
pending. -/
theorem spec_c9_witness :
    (⟨11, "b@x.com", QStatus.pending⟩ : ClientQueueItem).status = QStatus.pending
    ∧ ∃ pre post, clientS0.queue =
        pre ++ (⟨11, "b@x.com", QStatus.pending⟩ : ClientQueueItem) :: post
        ∧ ∀ j ∈ pre, j.status ≠ QStatus.pending :=
  spec_c9_fifo_selection clientS0 true ⟨11, "b@x.com", QStatus.pending⟩ (by decide)

/-- C3 (code bug): on (re)attach to a running campaign the client starts
`processQueue` directly, with no startup reconciliation.  An item left in
`sending` from an interrupted run is never set to `failed`: with a pending
item present the `sending` item is simply ignored, and with no pending item
the campaign is even marked completed while the item still sits in
`sending`. -/
theorem spec_c3_no_startup_reconciliation :
    (attachProcessor clientS0 false true).state.queue =
      [⟨10, "a@x.com", QStatus.sending⟩, ⟨11, "b@x.com", QStatus.sent⟩]
    ∧ (attachProcessor clientS1 false true).state.queue =
      [⟨10, "a@x.com", QStatus.sending⟩]
    ∧ (attachProcessor clientS1 false true).state.campaign.status =
      CStatus.completed := by
  refine ⟨?_, ?_, ?_⟩ <;> decide
